import Mathlib

/-!
Shallow embedding of the input normalization / validation / error translation
layer of the bedrock-kb-mcp-server repository
(src/bedrock_kb_mcp_server/{utils.py, models.py, main.py}).

Python strings are modelled as lists of characters (`Str`), Python ints as
`Int`, Python dictionaries whose keys are statically fixed in the source as
Lean structures whose optional keys are `Option` fields (`none` = key absent).
External effects (the STS `get_caller_identity` round trip and the final
Bedrock/S3/IAM call of each tool) are modelled by threading an `Env` value
and counting the number of external calls each function performs.
-/

set_option maxHeartbeats 1000000

deriving instance DecidableEq for Except

namespace BedrockKB

/-- Python strings, modelled as lists of characters. -/
abbrev Str := List Char

/-- Turn a Lean string literal into the character-list model. -/
def str (s : String) : Str := s.data

/-- ASCII whitespace as stripped by Python `str.strip` (the unicode whitespace
cases of CPython are not exercised by any theorem below). -/
def isSpace (c : Char) : Bool := c = ' ' || c = '\t' || c = '\n' || c = '\r'

/-- Left part of Python `str.strip`: drop leading whitespace. -/
def ltrim (s : Str) : Str := s.dropWhile isSpace

/-- Right part of Python `str.strip`: drop trailing whitespace. -/
def rtrim : Str → Str
  | [] => []
  | c :: rest =>
    let r := rtrim rest
    if r = [] then (if isSpace c then [] else [c]) else c :: r

/-- Python `str.strip`. -/
def trim (s : Str) : Str := rtrim (ltrim s)

/-- Python `value.startswith(pat)`. -/
def startswith : Str → Str → Bool
  | [], _ => true
  | _ :: _, [] => false
  | p :: ps, c :: cs => p == c && startswith ps cs

/-- Python `pat in s` (substring containment). -/
def containsSub (pat : Str) : Str → Bool
  | [] => pat.isEmpty
  | c :: rest => startswith pat (c :: rest) || containsSub pat rest

/-- Helper for `replaceAll`, with explicit fuel (the fuel is always at least
the length of the scanned list, so the `0, s` arm is never hit on real input;
it keeps the recursion structural so that proofs can evaluate it). -/
def replaceAllAux (pat : Str) : Nat → Str → Str
  | _, [] => []
  | 0, s => s
  | Nat.succ fuel, c :: rest =>
    if startswith pat (c :: rest) then
      replaceAllAux pat fuel ((c :: rest).drop pat.length)
    else
      c :: replaceAllAux pat fuel rest

/-- Python `s.replace(pat, "")`: remove every non-overlapping occurrence of
`pat`, scanning left to right. -/
def replaceAll (pat s : Str) : Str :=
  if pat.isEmpty then s else replaceAllAux pat s.length s

/-- A Python `0-9` digit test (`\d` of the source's regexes; the unicode
digits CPython's `\d` also accepts are not exercised by any theorem). -/
def isDigit (c : Char) : Bool := '0' ≤ c && c ≤ '9'

-- Sanity checks for the string model.
example : str "ab" = ['a', 'b'] := rfl
example : trim (str "  ab ") = str "ab" := by decide
example : startswith (str "s3://") (str "s3://bucket") = true := by decide
example : containsSub (str "--") (str "my--bucket") = true := by decide
example : replaceAll (str "role/") (str "role/role/A") = str "A" := by decide

/-- The exception taxonomy visible to the error translator in utils.py:
`ClientError` (AWS API failure, carrying the provider error code, the raw
provider message and an optional request id), `ValueError` (validation
failure, including pydantic `ValidationError` which subclasses it), and any
other exception. -/
inductive PyErr where
  | valueError (msg : Str)
  | clientError (code : Str) (message : Str) (requestId : Option Str)
  | otherError (msg : Str)
deriving DecidableEq

/-- The identity-service collaborator: the outcome of one STS
`get_caller_identity` round trip.  `Except.error` is a `ClientError` from
boto3; `Except.ok` carries the optional `"Account"` field of the response. -/
structure Env where
  stsResponse : Except (Str × Str × Option Str) (Option Str)

/-- utils.get_aws_account_id.  Returns the result together with the number of
external (STS) calls performed, which is always one. -/
def get_aws_account_id (env : Env) : Except PyErr Str × Nat :=
  match env.stsResponse with
  | .error (code, msg, rid) => (.error (.clientError code msg rid), 1)
  | .ok none =>
    (.error (.valueError (str "Failed to retrieve AWS account ID from STS response")), 1)
  | .ok (some account) => (.ok account, 1)

/-- The anchored regex `^arn:aws:iam::(\d{12}):role/(.+)$` of
utils.normalize_iam_role_arn, applied by `re.match` to the stripped value:
returns the captured (account id, role name) on a full match.  `(.+)$` forces
a nonempty role name that contains no newline (after `strip`, a trailing
newline cannot occur, so `$` is end-of-string). -/
def matchCanonicalRole (s : Str) : Option (Str × Str) :=
  if startswith (str "arn:aws:iam::") s then
    let account := (s.drop 13).take 12
    let afterAccount := (s.drop 13).drop 12
    if account.all isDigit && account.length = 12
        && startswith (str ":role/") afterAccount then
      let name := afterAccount.drop 6
      if name ≠ [] && name.all (fun c => c ≠ '\n') then some (account, name)
      else none
    else none
  else none

/-- utils.normalize_iam_role_arn.  The second component counts external (STS)
calls. -/
def normalize_iam_role_arn (env : Env) (value : Str) : Except PyErr Str × Nat :=
  if value = [] then
    (.error (.valueError (str "IAM role ARN cannot be empty")), 0)
  else
    match matchCanonicalRole (trim value) with
    | some _ => (.ok (trim value), 0)
    | none =>
      if startswith (str "arn:aws:iam::role/") (trim value) then
        match get_aws_account_id env with
        | (.error e, n) => (.error e, n)
        | (.ok account, n) =>
          (.ok (str "arn:aws:iam::" ++ account ++ str ":role/"
            ++ replaceAll (str "arn:aws:iam::role/") (trim value)), n)
      else if startswith (str "role/") (trim value) then
        match get_aws_account_id env with
        | (.error e, n) => (.error e, n)
        | (.ok account, n) =>
          (.ok (str "arn:aws:iam::" ++ account ++ str ":role/"
            ++ replaceAll (str "role/") (trim value)), n)
      else
        (.error (.valueError (str "Invalid IAM role ARN format")), 0)

/-- utils.normalize_s3_arn_or_uri (pure: no external call). -/
def normalize_s3_arn_or_uri (value : Str) : Except PyErr Str :=
  if value = [] then
    .error (.valueError (str "S3 ARN or URI cannot be empty"))
  else if startswith (str "arn:aws:s3:::") (trim value) then
    .ok (trim value)
  else if startswith (str "s3://") (trim value) then
    if ((trim value).drop 5).takeWhile (fun c => c ≠ '/') = [] then
      .error (.valueError (str "Invalid S3 URI format: bucket name is required"))
    else if (((trim value).drop 5).takeWhile (fun c => c ≠ '/')).length < 3
        ∨ (((trim value).drop 5).takeWhile (fun c => c ≠ '/')).length > 63 then
      .error (.valueError (str "Invalid bucket name length: must be 3-63 characters"))
    else
      .ok (str "arn:aws:s3:::" ++ ((trim value).drop 5).takeWhile (fun c => c ≠ '/'))
  else
    .error (.valueError (str "Invalid S3 ARN or URI format"))

-- Sanity checks against the docstring examples of utils.py.
example : normalize_s3_arn_or_uri (str "s3://my-bucket") = .ok (str "arn:aws:s3:::my-bucket") := by
  decide
example :
    normalize_s3_arn_or_uri (str "s3://my-bucket/path/to/file")
      = .ok (str "arn:aws:s3:::my-bucket") := by
  decide
example :
    normalize_s3_arn_or_uri (str "arn:aws:s3:::my-bucket")
      = .ok (str "arn:aws:s3:::my-bucket") := by
  decide
example :
    normalize_iam_role_arn ⟨.ok (some (str "123456789012"))⟩
        (str "arn:aws:iam::123456789012:role/MyRole")
      = (.ok (str "arn:aws:iam::123456789012:role/MyRole"), 0) := by
  decide
example :
    normalize_iam_role_arn ⟨.ok (some (str "123456789012"))⟩ (str "role/MyRole")
      = (.ok (str "arn:aws:iam::123456789012:role/MyRole"), 1) := by
  decide

/-! ## Enumerations (models.py) -/

/-- models.StorageType. -/
inductive StorageType where
  | S3
  | S3_VECTORS
deriving DecidableEq

/-- Python `StorageType(storage_type)`: lookup by enum value, `ValueError` on
a miss (the miss is reported by the caller). -/
def StorageType.parse (s : Str) : Option StorageType :=
  if s = str "S3" then some .S3
  else if s = str "S3_VECTORS" then some .S3_VECTORS
  else none

/-- models.SourceType. -/
inductive SourceType where
  | S3
deriving DecidableEq

def SourceType.parse (s : Str) : Option SourceType :=
  if s = str "S3" then some .S3 else none

def SourceType.value : SourceType → Str
  | .S3 => str "S3"

/-- models.ParsingStrategy. -/
inductive ParsingStrategy where
  | BEDROCK_FOUNDATION_MODEL
  | BEDROCK_DATA_AUTOMATION
deriving DecidableEq

def ParsingStrategy.parse (s : Str) : Option ParsingStrategy :=
  if s = str "BEDROCK_FOUNDATION_MODEL" then some .BEDROCK_FOUNDATION_MODEL
  else if s = str "BEDROCK_DATA_AUTOMATION" then some .BEDROCK_DATA_AUTOMATION
  else none

def ParsingStrategy.value : ParsingStrategy → Str
  | .BEDROCK_FOUNDATION_MODEL => str "BEDROCK_FOUNDATION_MODEL"
  | .BEDROCK_DATA_AUTOMATION => str "BEDROCK_DATA_AUTOMATION"

/-- models.ChunkingStrategy. -/
inductive ChunkingStrategy where
  | FIXED_SIZE
  | HIERARCHICAL
  | SEMANTIC
  | NONE
deriving DecidableEq

def ChunkingStrategy.parse (s : Str) : Option ChunkingStrategy :=
  if s = str "FIXED_SIZE" then some .FIXED_SIZE
  else if s = str "HIERARCHICAL" then some .HIERARCHICAL
  else if s = str "SEMANTIC" then some .SEMANTIC
  else if s = str "NONE" then some .NONE
  else none

def ChunkingStrategy.value : ChunkingStrategy → Str
  | .FIXED_SIZE => str "FIXED_SIZE"
  | .HIERARCHICAL => str "HIERARCHICAL"
  | .SEMANTIC => str "SEMANTIC"
  | .NONE => str "NONE"

/-! ## Pydantic configuration models and their API-dict builders (models.py) -/

/-- Python truthiness of an optional string (`None` and `""` are falsy). -/
def truthy : Option Str → Option Str
  | none => none
  | some s => if s = [] then none else some s

/-- `x if x else None` applied to a string tool argument (main.py). -/
def strOpt (s : Str) : Option Str := if s = [] then none else some s

/-- `x if x > 0 else None` applied to an int tool argument (main.py). -/
def intOpt (v : Int) : Option Int := if v > 0 then some v else none

/-- One entry of a `level_configurations` list: an opaque payload the source
passes through without inspecting; modelled as a dict from keys to ints. -/
abbrev LevelConfig := List (Str × Int)

/-- models.ParsingConfiguration (the validated pydantic model). -/
structure ParsingConfiguration where
  parsing_strategy : ParsingStrategy
  parsing_model_arn : Option Str := none
  parsing_modality : Option Str := none
  parsing_prompt_text : Option Str := none
deriving DecidableEq

/-- Constructing a models.ParsingConfiguration: the `validate_parsing_model`
model validator rejects the BEDROCK_FOUNDATION_MODEL strategy without a
truthy `parsing_model_arn`. -/
def mkParsingConfiguration (ps : ParsingStrategy)
    (modelArn modality promptText : Option Str) : Except PyErr ParsingConfiguration :=
  if ps = .BEDROCK_FOUNDATION_MODEL ∧ truthy modelArn = none then
    .error (.valueError
      (str "parsing_model_arn is required for BEDROCK_FOUNDATION_MODEL parsing strategy"))
  else
    .ok ⟨ps, modelArn, modality, promptText⟩

/-- models.ChunkingConfiguration (the validated pydantic model). -/
structure ChunkingConfiguration where
  chunking_strategy : ChunkingStrategy
  max_tokens : Option Int := none
  overlap_percentage : Option Int := none
  overlap_tokens : Option Int := none
  level_configurations : Option (List LevelConfig) := none
  buffer_size : Option Int := none
  breakpoint_percentile_threshold : Option Int := none
deriving DecidableEq

/-- Constructing a models.ChunkingConfiguration: the pydantic
`Field(ge=0, le=100)` bound on `overlap_percentage` is the only field
constraint (the message text is generated by pydantic; no theorem relies on
it). -/
def mkChunkingConfiguration (cs : ChunkingStrategy)
    (maxTokens overlapPercentage overlapTokens : Option Int)
    (levels : Option (List LevelConfig)) (bufferSize breakpoint : Option Int) :
    Except PyErr ChunkingConfiguration :=
  match overlapPercentage with
  | some v =>
    if v < 0 ∨ 100 < v then
      .error (.valueError (str "overlap_percentage must be between 0 and 100"))
    else
      .ok ⟨cs, maxTokens, some v, overlapTokens, levels, bufferSize, breakpoint⟩
  | none => .ok ⟨cs, maxTokens, none, overlapTokens, levels, bufferSize, breakpoint⟩

/-- models.VectorIngestionConfiguration. -/
structure VectorIngestionConfiguration where
  parsing_configuration : Option ParsingConfiguration := none
  chunking_configuration : Option ChunkingConfiguration := none
deriving DecidableEq

/-- `bedrockFoundationModelConfiguration` sub-dict built by `to_api_dict`;
`parsingPrompt` holds the text of the nested
`{"parsingPrompt": {"parsingPromptText": …}}` object. -/
structure FoundationModelDict where
  modelArn : Option Str
  parsingModality : Option Str := none
  parsingPrompt : Option Str := none
deriving DecidableEq

/-- `bedrockDataAutomationConfiguration` sub-dict built by `to_api_dict`. -/
structure AutomationDict where
  parsingModality : Option Str := none
deriving DecidableEq

/-- `parsingConfiguration` dict built by `to_api_dict`. -/
structure ParsingDict where
  parsingStrategy : Str
  bedrockFoundationModelConfiguration : Option FoundationModelDict := none
  bedrockDataAutomationConfiguration : Option AutomationDict := none
deriving DecidableEq

/-- `fixedSizeChunkingConfiguration` sub-dict: both keys are always emitted
by `to_api_dict` (the overlap defaults to 0 via `… or 0`), hence no `Option`
here. -/
structure FixedSizeDict where
  maxTokens : Int
  overlapPercentage : Int
deriving DecidableEq

/-- `hierarchicalChunkingConfiguration` sub-dict built by `to_api_dict`. -/
structure HierarchicalDict where
  levelConfigurations : Option (List LevelConfig) := none
  overlapTokens : Option Int := none
deriving DecidableEq

/-- `semanticChunkingConfiguration` sub-dict built by `to_api_dict`. -/
structure SemanticDict where
  maxTokens : Option Int := none
  bufferSize : Option Int := none
  breakpointPercentileThreshold : Option Int := none
deriving DecidableEq

/-- `chunkingConfiguration` dict built by `to_api_dict`. -/
structure ChunkingDict where
  chunkingStrategy : Str
  fixedSizeChunkingConfiguration : Option FixedSizeDict := none
  hierarchicalChunkingConfiguration : Option HierarchicalDict := none
  semanticChunkingConfiguration : Option SemanticDict := none
deriving DecidableEq

/-- The `vectorIngestionConfiguration` dict built by `to_api_dict`. -/
structure VICDict where
  parsingConfiguration : Option ParsingDict := none
  chunkingConfiguration : Option ChunkingDict := none
deriving DecidableEq

/-- Python `x or 0` on an optional int (`None` and `0` are falsy). -/
def pyOrZero : Option Int → Int
  | none => 0
  | some v => if v = 0 then 0 else v

/-- Python truthiness on an optional list (`None` and `[]` are falsy). -/
def truthyList : Option (List LevelConfig) → Option (List LevelConfig)
  | none => none
  | some l => if l = [] then none else some l

/-- The parsing half of models.VectorIngestionConfiguration.to_api_dict. -/
def buildParsingDict (p : ParsingConfiguration) : ParsingDict :=
  match p.parsing_strategy with
  | .BEDROCK_FOUNDATION_MODEL =>
    { parsingStrategy := ParsingStrategy.value p.parsing_strategy
      bedrockFoundationModelConfiguration := some
        { modelArn := p.parsing_model_arn
          parsingModality := truthy p.parsing_modality
          parsingPrompt := truthy p.parsing_prompt_text } }
  | .BEDROCK_DATA_AUTOMATION =>
    { parsingStrategy := ParsingStrategy.value p.parsing_strategy
      bedrockDataAutomationConfiguration := some
        { parsingModality := truthy p.parsing_modality } }

/-- The chunking half of models.VectorIngestionConfiguration.to_api_dict. -/
def buildChunkingDict (c : ChunkingConfiguration) : ChunkingDict :=
  match c.chunking_strategy with
  | .FIXED_SIZE =>
    match c.max_tokens with
    | some m =>
      { chunkingStrategy := ChunkingStrategy.value c.chunking_strategy
        fixedSizeChunkingConfiguration := some
          { maxTokens := m, overlapPercentage := pyOrZero c.overlap_percentage } }
    | none => { chunkingStrategy := ChunkingStrategy.value c.chunking_strategy }
  | .HIERARCHICAL =>
    { chunkingStrategy := ChunkingStrategy.value c.chunking_strategy
      hierarchicalChunkingConfiguration := some
        { levelConfigurations := truthyList c.level_configurations
          overlapTokens := c.overlap_tokens } }
  | .SEMANTIC =>
    { chunkingStrategy := ChunkingStrategy.value c.chunking_strategy
      semanticChunkingConfiguration := some
        { maxTokens := c.max_tokens
          bufferSize := c.buffer_size
          breakpointPercentileThreshold := c.breakpoint_percentile_threshold } }
  | .NONE => { chunkingStrategy := ChunkingStrategy.value c.chunking_strategy }

/-- models.VectorIngestionConfiguration.to_api_dict. -/
def to_api_dict (v : VectorIngestionConfiguration) : VICDict :=
  { parsingConfiguration := v.parsing_configuration.map buildParsingDict
    chunkingConfiguration := v.chunking_configuration.map buildChunkingDict }

/-! ## Error translator (utils.handle_errors) -/

/-- The uniform error envelope returned by utils.handle_errors (`details` and
`request_id` keys are only present for AWS ClientError failures). -/
structure ErrorEnvelope where
  error : Str
  code : Str
  details : Option Str := none
  request_id : Option Str := none
deriving DecidableEq

/-- The fixed AWS-error-code → Japanese-user-message table of
utils.handle_errors. -/
def error_messages : List (Str × Str) :=
  [ (str "AccessDeniedException", str "アクセス権限がありません"),
    (str "ResourceNotFoundException", str "リソースが見つかりません"),
    (str "ValidationException", str "入力値が無効です"),
    (str "ConflictException", str "リソースが既に存在するか、競合しています"),
    (str "ThrottlingException", str "リクエストが多すぎます。しばらく待ってから再試行してください"),
    (str "ServiceUnavailableException", str "サービスが一時的に利用できません"),
    (str "InternalServerException", str "サーバー内部エラーが発生しました"),
    (str "InvalidParameterException", str "パラメータが無効です"),
    (str "InvalidRequestException", str "リクエストが無効です"),
    (str "LimitExceededException", str "リソースの制限を超えました"),
    (str "ResourceInUseException", str "リソースが使用中です"),
    (str "TooManyRequestsException", str "リクエストが多すぎます"),
    (str "UnauthorizedException", str "認証に失敗しました"),
    (str "BadRequestException", str "リクエストが不正です"),
    (str "NotFoundException", str "リソースが見つかりません"),
    (str "ForbiddenException", str "アクセスが拒否されました") ]

/-- `error_messages.get(error_code, …)` lookup. -/
def lookupErrorMessage (code : Str) : Option Str :=
  (error_messages.find? (fun p => p.1 == code)).map (fun p => p.2)

/-- utils.handle_errors: the wrapped function either returns a payload
(`Sum.inl`) or raised an exception that is translated into the uniform error
envelope (`Sum.inr`); nothing propagates past this boundary. -/
def handle_errors (α : Type) (result : Except PyErr α) : α ⊕ ErrorEnvelope :=
  match result with
  | .ok v => .inl v
  | .error (.clientError code msg rid) =>
    .inr { error := (lookupErrorMessage code).getD msg
           code := code
           details := some msg
           request_id := rid }
  | .error (.valueError msg) =>
    .inr { error := msg, code := str "ValidationError" }
  | .error (.otherError msg) =>
    .inr { error := str "予期しないエラーが発生しました: " ++ msg
           code := str "InternalError" }

/-! ## Shared tool helpers (main.py, utils.py) -/

/-- utils.validate_required_string. -/
def validate_required_string (value paramName : Str) : Except PyErr Str :=
  if trim value = [] then .error (.valueError (paramName ++ str " is required"))
  else .ok (trim value)

/-- `region.strip() if region else "us-east-1"` (main.py). -/
def regionClean (region : Str) : Str :=
  if region = [] then str "us-east-1" else trim region

/-- The `if parsing_strategy: parsing_config = ParsingConfiguration(…)` block
of the tools: enum parse (its `ValueError` text is generated by Python) then
model construction. -/
def buildToolParsingConfig (parsing_strategy parsing_model_arn parsing_modality
    parsing_prompt_text : Str) : Except PyErr (Option ParsingConfiguration) :=
  if parsing_strategy = [] then .ok none
  else
    match ParsingStrategy.parse parsing_strategy with
    | none => .error (.valueError (str "is not a valid ParsingStrategy"))
    | some ps =>
      (mkParsingConfiguration ps (strOpt parsing_model_arn)
        (strOpt parsing_modality) (strOpt parsing_prompt_text)).map some

/-- The `if chunking_strategy: chunking_config = ChunkingConfiguration(…)`
block of the tools (ints `> 0` become set fields, everything else `None`;
the tools never pass `level_configurations`). -/
def buildToolChunkingConfig (chunking_strategy : Str)
    (chunking_max_tokens chunking_overlap_percentage chunking_overlap_tokens
      chunking_buffer_size chunking_breakpoint_threshold : Int) :
    Except PyErr (Option ChunkingConfiguration) :=
  if chunking_strategy = [] then .ok none
  else
    match ChunkingStrategy.parse chunking_strategy with
    | none => .error (.valueError (str "is not a valid ChunkingStrategy"))
    | some cs =>
      (mkChunkingConfiguration cs (intOpt chunking_max_tokens)
        (intOpt chunking_overlap_percentage) (intOpt chunking_overlap_tokens)
        none (intOpt chunking_buffer_size)
        (intOpt chunking_breakpoint_threshold)).map some

/-- The vector-ingestion construction block shared verbatim by
main.create_knowledge_base and main.create_data_source: build the optional
`ParsingConfiguration` / `ChunkingConfiguration` from the flat tool
arguments and combine them (run only when at least one strategy string is
nonempty, in which case at least one of the two configs is set). -/
def buildToolIngestionConfig
    (parsing_strategy parsing_model_arn parsing_modality parsing_prompt_text
      chunking_strategy : Str)
    (chunking_max_tokens chunking_overlap_percentage chunking_overlap_tokens
      chunking_buffer_size chunking_breakpoint_threshold : Int) :
    Except PyErr (Option VectorIngestionConfiguration) :=
  if parsing_strategy = [] ∧ chunking_strategy = [] then .ok none
  else
    match buildToolParsingConfig parsing_strategy parsing_model_arn
        parsing_modality parsing_prompt_text with
    | .error e => .error e
    | .ok pc =>
      match buildToolChunkingConfig chunking_strategy chunking_max_tokens
          chunking_overlap_percentage chunking_overlap_tokens
          chunking_buffer_size chunking_breakpoint_threshold with
      | .error e => .error e
      | .ok cc => .ok (some ⟨pc, cc⟩)

/-! ## Tool: retrieve (main.py) -/

/-- The retrieval request forwarded to the Bedrock gateway on success. -/
structure RetrieveCall where
  knowledge_base_id : Str
  query : Str
  number_of_results : Int
deriving DecidableEq

/-- main.retrieve (up to the gateway call; the second component counts
external calls, the single gateway query being the only one). -/
def retrieve (knowledge_base_id query : Str) (number_of_results : Int) :
    Except PyErr RetrieveCall × Nat :=
  match validate_required_string knowledge_base_id (str "knowledge_base_id") with
  | .error e => (.error e, 0)
  | .ok kb =>
    match validate_required_string query (str "query") with
    | .error e => (.error e, 0)
    | .ok q =>
      if number_of_results < 1 ∨ number_of_results > 100 then
        (.error (.valueError (str "number_of_results must be between 1 and 100")), 0)
      else
        (.ok ⟨kb, q, number_of_results⟩, 1)

/-! ## Tool: create_s3_bucket (main.py) -/

def isLowerDigit (c : Char) : Bool := ('a' ≤ c && c ≤ 'z') || isDigit c

def isBucketMid (c : Char) : Bool := isLowerDigit c || c = '.' || c = '-'

/-- Tail of the anchored bucket-name regex `^[a-z0-9][a-z0-9.-]*[a-z0-9]$`:
all but the last character in the middle class, the last in `[a-z0-9]`
(so a one-character name fails, since the regex needs two). -/
def bucketTail : Str → Bool
  | [] => false
  | [c] => isLowerDigit c
  | c :: rest => isBucketMid c && bucketTail rest

/-- The anchored regex `^[a-z0-9][a-z0-9.-]*[a-z0-9]$` of
main.create_s3_bucket. -/
def bucketRegexOk : Str → Bool
  | [] => false
  | c :: rest => isLowerDigit c && bucketTail rest

/-- Python `s.split(sep)` for a one-character separator. -/
def splitOn (sep : Char) : Str → List Str
  | [] => [[]]
  | c :: rest =>
    if c = sep then [] :: splitOn sep rest
    else
      match splitOn sep rest with
      | [] => [[c]]
      | g :: gs => (c :: g) :: gs

/-- The anchored regex `^(\d{1,3}\.){3}\d{1,3}$` of main.create_s3_bucket:
four dot-separated groups of one to three digits. -/
def isIpLike (s : Str) : Bool :=
  let parts := splitOn '.' s
  parts.length = 4 && parts.all (fun p => !p.isEmpty && p.length ≤ 3 && p.all isDigit)

/-- The bucket-creation request forwarded to the gateway on success. -/
structure BucketCall where
  bucket_name : Str
  region : Str
deriving DecidableEq

/-- main.create_s3_bucket (up to the gateway call; the gateway performs the
CreateBucket and its follow-up public-access block, counted as the one
logical external operation of this tool). -/
def create_s3_bucket (bucket_name region : Str) : Except PyErr BucketCall × Nat :=
  match validate_required_string bucket_name (str "bucket_name") with
  | .error e => (.error e, 0)
  | .ok bn =>
    if bn.length < 3 ∨ bn.length > 63 then
      (.error (.valueError (str "bucket_name must be between 3 and 63 characters")), 0)
    else if !bucketRegexOk bn then
      (.error (.valueError (str "bucket_name must start and end with a lowercase letter or number, and contain only lowercase letters, numbers, hyphens, and periods")), 0)
    else if containsSub (str "..") bn ∨ containsSub (str "--") bn then
      (.error (.valueError (str "bucket_name cannot contain consecutive periods or hyphens")), 0)
    else if isIpLike bn then
      (.error (.valueError (str "bucket_name cannot be in IP address format")), 0)
    else
      (.ok ⟨bn, regionClean region⟩, 1)

/-! ## Tool: create_bedrock_kb_role (main.py) -/

/-- The character class of the anchored regex `^[\w+=,.@-]+$` (ASCII `\w`;
the unicode word characters CPython's `\w` also accepts are not exercised by
any theorem). -/
def isRoleChar (c : Char) : Bool :=
  ('a' ≤ c && c ≤ 'z') || ('A' ≤ c && c ≤ 'Z') || isDigit c ||
    c = '_' || c = '+' || c = '=' || c = ',' || c = '.' || c = '@' || c = '-'

/-- The role-creation request forwarded to the gateway on success. -/
structure RoleCall where
  role_name : Str
  region : Str
  description : Str
  max_session_duration : Int
deriving DecidableEq

/-- main.create_bedrock_kb_role (up to the gateway call). -/
def create_bedrock_kb_role (role_name region description : Str)
    (max_session_duration : Int) : Except PyErr RoleCall × Nat :=
  match validate_required_string role_name (str "role_name") with
  | .error e => (.error e, 0)
  | .ok rn =>
    if rn.length < 1 ∨ rn.length > 64 then
      (.error (.valueError (str "role_name must be between 1 and 64 characters")), 0)
    else if !(!rn.isEmpty && rn.all isRoleChar) then
      (.error (.valueError (str "role_name must contain only alphanumeric characters, hyphens, underscores, periods, plus signs, equals signs, commas, and @ symbols")), 0)
    else if max_session_duration < 3600 ∨ max_session_duration > 43200 then
      (.error (.valueError (str "max_session_duration must be between 3600 and 43200 seconds")), 0)
    else
      (.ok ⟨rn, regionClean region, description, max_session_duration⟩, 1)

/-! ## Tool: create_knowledge_base (main.py, models.py) -/

/-- models.CreateKnowledgeBaseRequest (the validated pydantic model; the
`role_arn` field holds the normalized value returned by its field
validator). -/
structure CreateKnowledgeBaseRequest where
  name : Str
  description : Str
  role_arn : Str
  storage_type : StorageType
  bucket_arn : Str
  embedding_model_arn : Option Str
  vector_ingestion_configuration : Option VectorIngestionConfiguration
deriving DecidableEq

/-- The pydantic messages for failing name / description length constraints,
in field-declaration order (their text is generated by pydantic; no theorem
relies on it).  These precede the role field, so when the role validator
raises a `ValueError` the aggregate's leading message comes from here. -/
def kbEarlyErrors (name description : Str) : List Str :=
  (if name.length < 1 ∨ name.length > 100 then
    [str "name must have between 1 and 100 characters"] else [])
  ++ (if description.length < 1 then
        [str "description must have at least 1 character"] else [])

/-- All field-validation messages of models.CreateKnowledgeBaseRequest apart
from the role field, in field-declaration order. -/
def kbFieldErrors (name description bucket_arn : Str) : List Str :=
  kbEarlyErrors name description
    ++ (if startswith (str "arn:aws:s3:::") bucket_arn then []
        else [str "Invalid S3 bucket ARN format"])

/-- Constructing a models.CreateKnowledgeBaseRequest.  Pydantic validates the
fields in declaration order (name, description, role_arn, bucket_arn) and
aggregates `ValueError`s into one `ValidationError`; we keep the first failing
field's message (no theorem relies on the aggregate text, only on the error
category and the external-call count).  A non-ValueError exception escaping
the `role_arn` field validator — the STS `ClientError` — propagates as
itself.  The `validate_embedding_model` model validator runs only when every
field validated. -/
def mkCreateKnowledgeBaseRequest (env : Env) (name description role_arn : Str)
    (storage_type : StorageType) (bucket_arn : Str) (embedding : Option Str)
    (vic : Option VectorIngestionConfiguration) :
    Except PyErr CreateKnowledgeBaseRequest × Nat :=
  match normalize_iam_role_arn env role_arn with
  | (.error (.clientError c m r), n) => (.error (.clientError c m r), n)
  | (.error (.valueError m), n) =>
    (.error (.valueError ((kbEarlyErrors name description).headD m)), n)
  | (.error (.otherError m), n) => (.error (.otherError m), n)
  | (.ok nrole, n) =>
    match kbFieldErrors name description bucket_arn with
    | e :: _ => (.error (.valueError e), n)
    | [] =>
      if storage_type = .S3_VECTORS ∧ truthy embedding = none then
        (.error (.valueError (str "embedding_model_arn is required for S3_VECTORS storage type")), n)
      else
        (.ok ⟨name, description, nrole, storage_type, bucket_arn, embedding, vic⟩, n)

/-- `{"bucketArn": …}` (storage configuration, S3 variant). -/
structure S3ConfigDict where
  bucketArn : Str
deriving DecidableEq

/-- `{"vectorBucketArn": …}` (storage configuration, S3 Vectors variant). -/
structure S3VectorsConfigDict where
  vectorBucketArn : Str
deriving DecidableEq

/-- The `storage_configuration` dict built by main.create_knowledge_base. -/
structure StorageConfigDict where
  type : Str
  s3Configuration : Option S3ConfigDict := none
  s3VectorsConfiguration : Option S3VectorsConfigDict := none
deriving DecidableEq

/-- `supplementalDataStorageConfiguration`: the source emits the fixed shape
`{"storageLocations": [{"type": "S3", "s3Location": {"uri": uri}}]}`, so only
the uri varies and is modelled. -/
structure SupplementalStorageDict where
  uri : Str
deriving DecidableEq

/-- `vectorKnowledgeBaseConfiguration` dict. -/
structure VectorKBConfigDict where
  embeddingModelArn : Str
  supplementalDataStorageConfiguration : Option SupplementalStorageDict := none
deriving DecidableEq

/-- The `knowledge_base_configuration` dict (`{"type": "VECTOR", …}`). -/
structure KBConfigDict where
  type : Str
  vectorKnowledgeBaseConfiguration : VectorKBConfigDict
deriving DecidableEq

/-- The knowledge-base-creation request forwarded to the gateway on
success. -/
structure CreateKBCall where
  name : Str
  description : Str
  role_arn : Str
  storage_configuration : StorageConfigDict
  knowledge_base_configuration : Option KBConfigDict
  vector_ingestion_configuration : Option VICDict
  region : Str
deriving DecidableEq

/-- The storage / knowledge-base configuration construction of
main.create_knowledge_base (after request validation, before the gateway
call).  On the S3_VECTORS path the embedding model is re-checked and the
optional multimodal S3 uri is validated; on the S3 path the embedding model
and the multimodal uri are never consulted. -/
def buildStorageAndKBConfig (req : CreateKnowledgeBaseRequest)
    (multimodal_storage_s3_uri : Str) :
    Except PyErr (StorageConfigDict × Option KBConfigDict) :=
  match req.storage_type with
  | .S3_VECTORS =>
    match truthy req.embedding_model_arn with
    | none => .error (.valueError (str "embedding_model_arn is required for S3_VECTORS storage type"))
    | some e =>
      let sc : StorageConfigDict :=
        { type := str "S3_VECTORS", s3VectorsConfiguration := some ⟨req.bucket_arn⟩ }
      let suppRes : Except PyErr (Option SupplementalStorageDict) :=
        if multimodal_storage_s3_uri = [] then .ok none
        else
          let mu := trim multimodal_storage_s3_uri
          if !startswith (str "s3://") mu then
            .error (.valueError (str "multimodal_storage_s3_uri must start with s3://"))
          else if mu.length < 7 then
            .error (.valueError (str "multimodal_storage_s3_uri must be a valid S3 URI"))
          else .ok (some ⟨mu⟩)
      match suppRes with
      | .error er => .error er
      | .ok supp =>
        .ok (sc, some { type := str "VECTOR"
                        vectorKnowledgeBaseConfiguration :=
                          { embeddingModelArn := e
                            supplementalDataStorageConfiguration := supp } })
  | .S3 =>
    .ok ({ type := str "S3", s3Configuration := some ⟨req.bucket_arn⟩ }, none)

/-- The flat arguments of the main.create_knowledge_base tool, with the
source's default values. -/
structure CreateKBArgs where
  name : Str
  description : Str
  role_arn : Str
  storage_type : Str := str "S3"
  bucket_arn : Str := []
  embedding_model_arn : Str := []
  region : Str := str "us-east-1"
  parsing_strategy : Str := []
  parsing_model_arn : Str := []
  parsing_modality : Str := []
  parsing_prompt_text : Str := []
  chunking_strategy : Str := []
  chunking_max_tokens : Int := 0
  chunking_overlap_percentage : Int := 0
  chunking_overlap_tokens : Int := 0
  chunking_buffer_size : Int := 0
  chunking_breakpoint_threshold : Int := 0
  multimodal_storage_s3_uri : Str := []
deriving DecidableEq

/-- main.create_knowledge_base (up to the gateway call).  The second
component counts external calls: the optional STS lookup of the role
normalization plus, on success, the one Bedrock CreateKnowledgeBase call. -/
def create_knowledge_base (env : Env) (a : CreateKBArgs) :
    Except PyErr CreateKBCall × Nat :=
  match StorageType.parse a.storage_type with
  | none => (.error (.valueError (str "Invalid storage_type: must be S3 or S3_VECTORS")), 0)
  | some st =>
    match buildToolIngestionConfig a.parsing_strategy a.parsing_model_arn
        a.parsing_modality a.parsing_prompt_text a.chunking_strategy
        a.chunking_max_tokens a.chunking_overlap_percentage a.chunking_overlap_tokens
        a.chunking_buffer_size a.chunking_breakpoint_threshold with
    | .error e => (.error e, 0)
    | .ok vic =>
      match mkCreateKnowledgeBaseRequest env a.name a.description a.role_arn st
          a.bucket_arn (strOpt a.embedding_model_arn) vic with
      | (.error e, n) => (.error e, n)
      | (.ok req, n) =>
        match buildStorageAndKBConfig req a.multimodal_storage_s3_uri with
        | .error e => (.error e, n)
        | .ok (sc, kbc) =>
          (.ok { name := req.name
                 description := req.description
                 role_arn := req.role_arn
                 storage_configuration := sc
                 knowledge_base_configuration := kbc
                 vector_ingestion_configuration :=
                   req.vector_ingestion_configuration.map to_api_dict
                 region := regionClean a.region }, n + 1)

/-! ## Tool: create_data_source (main.py, models.py) -/

/-- models.CreateDataSourceRequest (the validated pydantic model; the
`bucket_arn` field holds the normalized value returned by its field
validator). -/
structure CreateDataSourceRequest where
  knowledge_base_id : Str
  name : Str
  source_type : SourceType
  bucket_arn : Str
  inclusion_prefixes : Str
  vector_ingestion_configuration : Option VectorIngestionConfiguration
deriving DecidableEq

/-- Constructing a models.CreateDataSourceRequest (same first-failing-field
convention as `mkCreateKnowledgeBaseRequest`; everything here is pure). -/
def mkCreateDataSourceRequest (knowledge_base_id name : Str)
    (source_type : SourceType) (bucket_arn inclusion : Str)
    (vic : Option VectorIngestionConfiguration) :
    Except PyErr CreateDataSourceRequest :=
  let nameErrs : List Str :=
    if name.length < 1 ∨ name.length > 100 then
      [str "name must have between 1 and 100 characters"] else []
  match normalize_s3_arn_or_uri bucket_arn with
  | .error (.valueError m) =>
    .error (.valueError ((nameErrs ++ [m]).headD m))
  | .error e => .error e
  | .ok nb =>
    match nameErrs with
    | e :: _ => .error (.valueError e)
    | [] => .ok ⟨knowledge_base_id, name, source_type, nb, inclusion, vic⟩

/-- `[p.strip() for p in request.inclusion_prefixes.split(",") if p.strip()]
if request.inclusion_prefixes else []` (main.create_data_source). -/
def parseInclusion (inclusion : Str) : List Str :=
  if inclusion = [] then []
  else ((splitOn ',' inclusion).map trim).filter (fun p => p ≠ [])

/-- The `s3Configuration` dict of a data-source configuration
(`inclusionPrefixes` is only added when some prefix survives). -/
structure DSS3ConfigDict where
  bucketArn : Str
  inclusionPrefixes : Option (List Str) := none
deriving DecidableEq

/-- The `data_source_configuration` dict built by main.create_data_source. -/
structure DataSourceConfigDict where
  type : Str
  s3Configuration : DSS3ConfigDict
deriving DecidableEq

/-- The data-source-creation request forwarded to the gateway on success. -/
structure CreateDSCall where
  knowledge_base_id : Str
  name : Str
  data_source_configuration : DataSourceConfigDict
  vector_ingestion_configuration : Option VICDict
deriving DecidableEq

/-- The flat arguments of the main.create_data_source tool, with the
source's default values. -/
structure CreateDSArgs where
  knowledge_base_id : Str
  name : Str
  source_type : Str := str "S3"
  bucket_arn : Str := []
  inclusion_prefixes : Str := []
  parsing_strategy : Str := []
  parsing_model_arn : Str := []
  parsing_modality : Str := []
  parsing_prompt_text : Str := []
  chunking_strategy : Str := []
  chunking_max_tokens : Int := 0
  chunking_overlap_percentage : Int := 0
  chunking_overlap_tokens : Int := 0
  chunking_buffer_size : Int := 0
  chunking_breakpoint_threshold : Int := 0
deriving DecidableEq

/-- main.create_data_source (up to the gateway call; everything before the
gateway call is pure, so the call count is 1 exactly on success). -/
def create_data_source (a : CreateDSArgs) : Except PyErr CreateDSCall × Nat :=
  match SourceType.parse a.source_type with
  | none => (.error (.valueError (str "Invalid source_type: must be S3")), 0)
  | some stype =>
    match buildToolIngestionConfig a.parsing_strategy a.parsing_model_arn
        a.parsing_modality a.parsing_prompt_text a.chunking_strategy
        a.chunking_max_tokens a.chunking_overlap_percentage a.chunking_overlap_tokens
        a.chunking_buffer_size a.chunking_breakpoint_threshold with
    | .error e => (.error e, 0)
    | .ok vic =>
      match mkCreateDataSourceRequest a.knowledge_base_id a.name stype
          a.bucket_arn a.inclusion_prefixes vic with
      | .error e => (.error e, 0)
      | .ok req =>
        let prefixes := parseInclusion req.inclusion_prefixes
        (.ok { knowledge_base_id := req.knowledge_base_id
               name := req.name
               data_source_configuration :=
                 { type := SourceType.value req.source_type
                   s3Configuration :=
                     { bucketArn := req.bucket_arn
                       inclusionPrefixes := if prefixes = [] then none else some prefixes } }
               vector_ingestion_configuration :=
                 req.vector_ingestion_configuration.map to_api_dict }, 1)

/-! ## Helper predicates and fixtures for the theorems -/

/-- The outcome is a `ValueError` — i.e. what utils.handle_errors reports
with code `"ValidationError"`. -/
def isValidationError {α : Type} : Except PyErr α → Bool
  | .error (.valueError _) => true
  | _ => false

/-- A tool outcome that is a validation rejection reached with zero external
calls. -/
def rejectedNoCall {α : Type} (r : Except PyErr α × Nat) : Bool :=
  isValidationError r.1 && r.2 == 0

/-- A fixed environment whose identity lookup succeeds with the account id
`123456789012`. -/
def env0 : Env := ⟨.ok (some (str "123456789012"))⟩

/-! ## Claim theorems -/

/-- C1: every invalid input listed in the spec is rejected with a validation
error before any external-service call is made: for create_knowledge_base an
empty name, a name of length 101, storage type S3_VECTORS with an empty
embedding-model reference, and foundation-model parsing with an empty model
reference; for retrieve, number_of_results 0 and 101; for create_s3_bucket, a
bucket name of length 2, the bucket name "192.168.1.1", and a bucket name
containing "--"; for create_bedrock_kb_role, a role name of length 65 and
max_session_duration 3599 and 43201.  (The accompanying otherwise-valid
arguments use a canonical role reference, so the zero external-call count
also covers the STS collaborator.) -/
theorem c1_invalid_inputs_rejected_before_external_calls :
    rejectedNoCall (create_knowledge_base env0
      { name := [], description := str "d",
        role_arn := str "arn:aws:iam::123456789012:role/MyRole",
        bucket_arn := str "arn:aws:s3:::my-bucket" }) = true
    ∧ rejectedNoCall (create_knowledge_base env0
      { name := List.replicate 101 'a', description := str "d",
        role_arn := str "arn:aws:iam::123456789012:role/MyRole",
        bucket_arn := str "arn:aws:s3:::my-bucket" }) = true
    ∧ rejectedNoCall (create_knowledge_base env0
      { name := str "KB1", description := str "d",
        role_arn := str "arn:aws:iam::123456789012:role/MyRole",
        storage_type := str "S3_VECTORS",
        bucket_arn := str "arn:aws:s3:::my-bucket",
        embedding_model_arn := [] }) = true
    ∧ rejectedNoCall (create_knowledge_base env0
      { name := str "KB1", description := str "d",
        role_arn := str "arn:aws:iam::123456789012:role/MyRole",
        bucket_arn := str "arn:aws:s3:::my-bucket",
        parsing_strategy := str "BEDROCK_FOUNDATION_MODEL",
        parsing_model_arn := [] }) = true
    ∧ rejectedNoCall (retrieve (str "kb-id") (str "query") 0) = true
    ∧ rejectedNoCall (retrieve (str "kb-id") (str "query") 101) = true
    ∧ rejectedNoCall (create_s3_bucket (str "ab") (str "us-east-1")) = true
    ∧ rejectedNoCall (create_s3_bucket (str "192.168.1.1") (str "us-east-1")) = true
    ∧ rejectedNoCall (create_s3_bucket (str "my--bucket") (str "us-east-1")) = true
    ∧ rejectedNoCall (create_bedrock_kb_role (List.replicate 65 'a')
        (str "us-east-1") (str "Bedrock Knowledge Base access") 3600) = true
    ∧ rejectedNoCall (create_bedrock_kb_role (str "MyRole")
        (str "us-east-1") (str "Bedrock Knowledge Base access") 3599) = true
    ∧ rejectedNoCall (create_bedrock_kb_role (str "MyRole")
        (str "us-east-1") (str "Bedrock Knowledge Base access") 43201) = true := by
  decide

/-- C5: for every chunking configuration, the built configuration dictionary
contains at most the sub-object of the selected strategy and never one of
another strategy. -/
theorem c5_chunking_dict_only_selected_variant (c : ChunkingConfiguration) :
    (c.chunking_strategy = .FIXED_SIZE →
      (buildChunkingDict c).hierarchicalChunkingConfiguration = none
        ∧ (buildChunkingDict c).semanticChunkingConfiguration = none)
    ∧ (c.chunking_strategy = .HIERARCHICAL →
      (buildChunkingDict c).fixedSizeChunkingConfiguration = none
        ∧ (buildChunkingDict c).semanticChunkingConfiguration = none)
    ∧ (c.chunking_strategy = .SEMANTIC →
      (buildChunkingDict c).fixedSizeChunkingConfiguration = none
        ∧ (buildChunkingDict c).hierarchicalChunkingConfiguration = none)
    ∧ (c.chunking_strategy = .NONE →
      (buildChunkingDict c).fixedSizeChunkingConfiguration = none
        ∧ (buildChunkingDict c).hierarchicalChunkingConfiguration = none
        ∧ (buildChunkingDict c).semanticChunkingConfiguration = none) := by
  obtain ⟨cs, mt, op, ot, lc, bs, bp⟩ := c
  cases cs <;> cases mt <;> simp [buildChunkingDict]

/-- C5 witness: the theorem applied to a concrete FIXED_SIZE configuration. -/
theorem c5_witness :
    (buildChunkingDict { chunking_strategy := .FIXED_SIZE, max_tokens := some 1000 }
      : ChunkingDict).hierarchicalChunkingConfiguration = none
    ∧ (buildChunkingDict { chunking_strategy := .FIXED_SIZE, max_tokens := some 1000 }
      : ChunkingDict).semanticChunkingConfiguration = none :=
  (c5_chunking_dict_only_selected_variant
    { chunking_strategy := .FIXED_SIZE, max_tokens := some 1000 }).1 rfl

/-- C6: an external-service error with code "ThrottlingException" is returned
as an envelope (not re-raised) whose user message is the fixed mapped string,
whose code is "ThrottlingException" and whose detail is the raw provider
message; an error code outside the lookup table falls back to the raw
message. -/
theorem c6_throttling_translation (msg : Str) (rid : Option Str) (code : Str) :
    handle_errors RetrieveCall
        (.error (.clientError (str "ThrottlingException") msg rid))
      = .inr { error := str "リクエストが多すぎます。しばらく待ってから再試行してください"
               code := str "ThrottlingException"
               details := some msg
               request_id := rid }
    ∧ (lookupErrorMessage code = none →
        handle_errors RetrieveCall (.error (.clientError code msg rid))
          = .inr { error := msg, code := code, details := some msg, request_id := rid }) := by
  constructor
  · have h : lookupErrorMessage (str "ThrottlingException")
        = some (str "リクエストが多すぎます。しばらく待ってから再試行してください") := by decide
    simp [handle_errors, h]
  · intro h
    simp [handle_errors, h]

/-- C6 witness: the theorem applied at a concrete unmapped error code. -/
theorem c6_witness :
    lookupErrorMessage (str "SomeNewException") = none
    ∧ handle_errors RetrieveCall
        (.error (.clientError (str "SomeNewException") (str "raw message") none))
      = .inr { error := str "raw message", code := str "SomeNewException"
               details := some (str "raw message"), request_id := none } :=
  ⟨by decide,
    (c6_throttling_translation (str "raw message") none (str "SomeNewException")).2 (by decide)⟩

/-- C7: any error that is neither an external-service error nor a validation
error yields an envelope with code "InternalError" whose message is the
generic prefix followed by the error text (so never the error text verbatim),
and whose detail field is absent (the full detail is only logged). -/
theorem c7_internal_error_envelope (msg : Str) :
    handle_errors RetrieveCall (.error (.otherError msg))
      = .inr { error := str "予期しないエラーが発生しました: " ++ msg
               code := str "InternalError"
               details := none
               request_id := none }
    ∧ str "予期しないエラーが発生しました: " ++ msg ≠ msg := by
  refine ⟨rfl, fun h => ?_⟩
  have hlen := congrArg List.length h
  simp [List.length_append, str] at hlen
  omega

/-- C4 counterexample: the claim says an optional field the caller did not
supply — for example the overlap percentage of a FIXED_SIZE chunking
configuration — is not present as a key in the structure sent to the external
service.  But for a FIXED_SIZE configuration with `max_tokens` supplied and
`overlap_percentage` absent, `to_api_dict` emits the `overlapPercentage` key
with the default value 0 (`… or 0` in the source), so the key is present. -/
theorem c4_counterexample :
    to_api_dict
        { chunking_configuration :=
            some { chunking_strategy := .FIXED_SIZE, max_tokens := some 1000
                   overlap_percentage := none } }
      = { chunkingConfiguration := some
            { chunkingStrategy := str "FIXED_SIZE"
              fixedSizeChunkingConfiguration :=
                some { maxTokens := 1000, overlapPercentage := 0 } } } := by
  decide

/-- C4 amended: the builder omits absent optional fields for every optional
field except the overlap percentage of a FIXED_SIZE chunking configuration,
which is emitted as 0 when absent (while an absent `max_tokens` omits the
whole fixedSize sub-object): absent parsing configuration / chunking
configuration, foundation-model parsing modality and prompt, data-automation
parsing modality, hierarchical overlap tokens and level configurations, and
the three semantic optional fields are all omitted from the output rather
than emitted with a null or default value. -/
theorem c4_optional_fields_omitted (v : VectorIngestionConfiguration)
    (p : ParsingConfiguration) (c : ChunkingConfiguration) (m : Int) :
    (v.parsing_configuration = none → (to_api_dict v).parsingConfiguration = none)
    ∧ (v.chunking_configuration = none → (to_api_dict v).chunkingConfiguration = none)
    ∧ (p.parsing_strategy = .BEDROCK_FOUNDATION_MODEL → p.parsing_modality = none →
        (buildParsingDict p).bedrockFoundationModelConfiguration.map
          (fun f => f.parsingModality) = some none)
    ∧ (p.parsing_strategy = .BEDROCK_FOUNDATION_MODEL → p.parsing_prompt_text = none →
        (buildParsingDict p).bedrockFoundationModelConfiguration.map
          (fun f => f.parsingPrompt) = some none)
    ∧ (p.parsing_strategy = .BEDROCK_DATA_AUTOMATION → p.parsing_modality = none →
        (buildParsingDict p).bedrockDataAutomationConfiguration.map
          (fun f => f.parsingModality) = some none)
    ∧ (c.chunking_strategy = .HIERARCHICAL → c.overlap_tokens = none →
        (buildChunkingDict c).hierarchicalChunkingConfiguration.map
          (fun h => h.overlapTokens) = some none)
    ∧ (c.chunking_strategy = .HIERARCHICAL → c.level_configurations = none →
        (buildChunkingDict c).hierarchicalChunkingConfiguration.map
          (fun h => h.levelConfigurations) = some none)
    ∧ (c.chunking_strategy = .SEMANTIC → c.buffer_size = none →
        (buildChunkingDict c).semanticChunkingConfiguration.map
          (fun s => s.bufferSize) = some none)
    ∧ (c.chunking_strategy = .SEMANTIC → c.breakpoint_percentile_threshold = none →
        (buildChunkingDict c).semanticChunkingConfiguration.map
          (fun s => s.breakpointPercentileThreshold) = some none)
    ∧ (c.chunking_strategy = .SEMANTIC → c.max_tokens = none →
        (buildChunkingDict c).semanticChunkingConfiguration.map
          (fun s => s.maxTokens) = some none)
    ∧ (c.chunking_strategy = .FIXED_SIZE → c.max_tokens = some m →
        c.overlap_percentage = none →
        (buildChunkingDict c).fixedSizeChunkingConfiguration
          = some { maxTokens := m, overlapPercentage := 0 })
    ∧ (c.chunking_strategy = .FIXED_SIZE → c.max_tokens = none →
        (buildChunkingDict c).fixedSizeChunkingConfiguration = none) := by
  refine ⟨fun h => ?_, fun h => ?_, fun h1 h2 => ?_, fun h1 h2 => ?_, fun h1 h2 => ?_,
          fun h1 h2 => ?_, fun h1 h2 => ?_, fun h1 h2 => ?_, fun h1 h2 => ?_,
          fun h1 h2 => ?_, fun h1 h2 h3 => ?_, fun h1 h2 => ?_⟩ <;>
    simp_all [to_api_dict, buildParsingDict, buildChunkingDict, truthy, truthyList, pyOrZero]

/-- C4 witness: the amended theorem applied to a concrete SEMANTIC
configuration with no buffer size. -/
theorem c4_witness :
    (buildChunkingDict { chunking_strategy := .SEMANTIC, max_tokens := some 500 }
      : ChunkingDict).semanticChunkingConfiguration.map
        (fun s => s.bufferSize) = some none :=
  (c4_optional_fields_omitted {} { parsing_strategy := .BEDROCK_DATA_AUTOMATION }
    { chunking_strategy := .SEMANTIC, max_tokens := some 500 } 0).2.2.2.2.2.2.2.1 rfl rfl

/-! ## String lemmas for the normalization theorems -/

theorem startswith_append (p t : Str) : startswith p (p ++ t) = true := by
  induction p with
  | nil => rfl
  | cons c cs ih => simp [startswith, ih]

theorem startswith_eq_append {p s : Str} (h : startswith p s = true) :
    ∃ t, s = p ++ t := by
  induction p generalizing s with
  | nil => exact ⟨s, rfl⟩
  | cons c cs ih =>
    cases s with
    | nil => simp [startswith] at h
    | cons b bs =>
      simp only [startswith, Bool.and_eq_true, beq_iff_eq] at h
      obtain ⟨rfl, htail⟩ := h
      obtain ⟨t, rfl⟩ := ih htail
      exact ⟨t, rfl⟩

theorem rtrim_cons (c : Char) (t : Str) :
    rtrim (c :: t)
      = if rtrim t = [] then (if isSpace c then [] else [c]) else c :: rtrim t := rfl

theorem rtrim_append (p t : Str) :
    rtrim (p ++ t) = if rtrim t = [] then rtrim p else p ++ rtrim t := by
  induction p with
  | nil => cases h : rtrim t <;> simp [h, rtrim]
  | cons c p' ih =>
    rw [List.cons_append, rtrim_cons, ih, rtrim_cons]
    cases h : rtrim t with
    | nil => simp [h]
    | cons a l => simp [h]

theorem rtrim_nil : rtrim ([] : Str) = [] := rfl

theorem rtrim_idem (s : Str) : rtrim (rtrim s) = rtrim s := by
  induction s with
  | nil => rfl
  | cons c t ih =>
    rw [rtrim_cons]
    cases h : rtrim t with
    | nil =>
      by_cases hc : isSpace c = true
      · simp [hc, rtrim_nil]
      · simp [hc, rtrim_nil, rtrim_cons]
    | cons a l =>
      have hal : rtrim (a :: l) = a :: l := by rw [← h]; exact ih
      simp [rtrim_cons, hal]

theorem ltrim_cons_of_neg {c : Char} (t : Str) (h : isSpace c = false) :
    ltrim (c :: t) = c :: t := by
  simp [ltrim, List.dropWhile_cons, h]

theorem ltrim_head_not_space {s : Str} {c : Char} {t : Str}
    (h : ltrim s = c :: t) : isSpace c = false := by
  induction s with
  | nil => cases h
  | cons a r ih =>
    rw [ltrim, List.dropWhile_cons] at h
    split at h
    · exact ih h
    · rename_i ha
      cases h
      simpa using ha

theorem trim_idem (s : Str) : trim (trim s) = trim s := by
  unfold trim
  have h1 : ltrim (rtrim (ltrim s)) = rtrim (ltrim s) := by
    cases hl : ltrim s with
    | nil => rfl
    | cons c t =>
      rw [rtrim_cons]
      split
      · split
        · rfl
        · rename_i hc
          exact ltrim_cons_of_neg [] (ltrim_head_not_space hl)
      · exact ltrim_cons_of_neg _ (ltrim_head_not_space hl)
  rw [h1, rtrim_idem]

theorem takeWhile_append_all {p : Char → Bool} {l : Str} (h : l.all p = true)
    (t : Str) : (l ++ t).takeWhile p = l ++ t.takeWhile p := by
  induction l with
  | nil => simp
  | cons c cs ih =>
    simp only [List.all_cons, Bool.and_eq_true] at h
    simp [List.takeWhile_cons, h.1, ih h.2]

/-- Any input that already starts with the canonical S3 ARN marker is
normalized to its own stripped value. -/
theorem normalize_of_arn_marker (s : Str)
    (h : startswith (str "arn:aws:s3:::") s = true) :
    normalize_s3_arn_or_uri s = .ok (trim s) := by
  obtain ⟨t, rfl⟩ := startswith_eq_append h
  have harn : (str "arn:aws:s3:::" : Str) = 'a' :: str "rn:aws:s3:::" := rfl
  have hne : (str "arn:aws:s3:::" ++ t : Str) ≠ [] := by
    rw [harn, List.cons_append]
    exact List.cons_ne_nil _ _
  have hl : ltrim (str "arn:aws:s3:::" ++ t) = str "arn:aws:s3:::" ++ t := by
    rw [harn, List.cons_append]
    exact ltrim_cons_of_neg _ (by decide)
  have htrim : trim (str "arn:aws:s3:::" ++ t) = rtrim (str "arn:aws:s3:::" ++ t) := by
    unfold trim
    rw [hl]
  have hsw : startswith (str "arn:aws:s3:::") (trim (str "arn:aws:s3:::" ++ t)) = true := by
    rw [htrim, rtrim_append]
    split
    · have hr : rtrim (str "arn:aws:s3:::") = str "arn:aws:s3:::" := by decide
      rw [hr]
      simpa using startswith_append (str "arn:aws:s3:::") []
    · exact startswith_append _ _
  simp [normalize_s3_arn_or_uri, hne, hsw]

/-- C9 counterexample: the claim says normalization is idempotent on every
input it accepts, but the shorthand `"s3://ab /x"` carries the 3-character
bucket part `"ab "` ending in a space (only the length is validated, not the
charset), so one normalization yields `"arn:aws:s3:::ab "` while a second
normalization strips the trailing space and yields the different value
`"arn:aws:s3:::ab"`. -/
theorem c9_counterexample :
    normalize_s3_arn_or_uri (str "s3://ab /x") = .ok (str "arn:aws:s3:::ab ")
    ∧ normalize_s3_arn_or_uri (str "arn:aws:s3:::ab ") = .ok (str "arn:aws:s3:::ab")
    ∧ (str "arn:aws:s3:::ab" : Str) ≠ str "arn:aws:s3:::ab " := by
  refine ⟨by decide, by decide, by decide⟩

/-- C9 amended: normalization is idempotent up to the whitespace strip it
performs — whenever `normalize_s3_arn_or_uri x = ok y`, normalizing `y`
succeeds and returns `trim y`; in particular re-normalization is the
identity on every result that carries no trailing whitespace (every result
whose bucket part does, as in the counterexample, is only stripped, never
rejected or otherwise rewritten). -/
theorem c9_normalization_idempotent_up_to_trim (x y : Str)
    (h : normalize_s3_arn_or_uri x = .ok y) :
    normalize_s3_arn_or_uri y = .ok (trim y) := by
  unfold normalize_s3_arn_or_uri at h
  split at h
  · exact Except.noConfusion h
  · split at h
    · rename_i hA
      cases h
      rw [normalize_of_arn_marker _ hA, trim_idem]
    · split at h
      · split at h
        · exact Except.noConfusion h
        · split at h
          · exact Except.noConfusion h
          · cases h
            exact normalize_of_arn_marker _ (startswith_append _ _)
      · exact Except.noConfusion h

/-- C9 witness: the amended theorem applied to the counterexample input. -/
theorem c9_witness :
    normalize_s3_arn_or_uri (str "arn:aws:s3:::ab ")
      = .ok (trim (str "arn:aws:s3:::ab ")) :=
  c9_normalization_idempotent_up_to_trim (str "s3://ab /x") (str "arn:aws:s3:::ab ")
    (by decide)

/-- C8: shorthand storage references `s3://<bucket>/<path>` normalize to the
canonical form `arn:aws:s3:::<bucket>` with the path discarded; inputs
already in canonical form are returned unchanged; and a shorthand whose
bucket part is shorter than 3 or longer than 63 characters is rejected with
a validation error. -/
theorem c8_storage_reference_normalization (s bucket path : Str) :
    (trim s = s → startswith (str "arn:aws:s3:::") s = true →
        normalize_s3_arn_or_uri s = .ok s)
    ∧ (trim (str "s3://" ++ (bucket ++ '/' :: path))
          = str "s3://" ++ (bucket ++ '/' :: path) →
        bucket.all (fun c => c ≠ '/') = true →
        3 ≤ bucket.length → bucket.length ≤ 63 →
        normalize_s3_arn_or_uri (str "s3://" ++ (bucket ++ '/' :: path))
          = .ok (str "arn:aws:s3:::" ++ bucket))
    ∧ (trim (str "s3://" ++ (bucket ++ '/' :: path))
          = str "s3://" ++ (bucket ++ '/' :: path) →
        bucket.all (fun c => c ≠ '/') = true →
        (bucket.length < 3 ∨ 63 < bucket.length) →
        isValidationError
          (normalize_s3_arn_or_uri (str "s3://" ++ (bucket ++ '/' :: path))) = true) := by
  have hne : (str "s3://" ++ (bucket ++ '/' :: path) : Str) ≠ [] := by
    rw [show (str "s3://" : Str) = 's' :: str "3://" from rfl, List.cons_append]
    exact List.cons_ne_nil _ _
  have hnota :
      startswith (str "arn:aws:s3:::") (str "s3://" ++ (bucket ++ '/' :: path)) = false := rfl
  have hs3 :
      startswith (str "s3://") (str "s3://" ++ (bucket ++ '/' :: path)) = true :=
    startswith_append _ _
  have hdrop : (str "s3://" ++ (bucket ++ '/' :: path)).drop 5 = bucket ++ '/' :: path := rfl
  refine ⟨fun ht hsw => ?_, fun ht hall h3 h63 => ?_, fun ht hall hlen => ?_⟩
  · rw [normalize_of_arn_marker s hsw, ht]
  · have htake : (bucket ++ '/' :: path).takeWhile (fun c => c ≠ '/') = bucket := by
      rw [takeWhile_append_all hall]
      simp [List.takeWhile_cons]
    have hbne : bucket ≠ [] := by
      intro e
      rw [e] at h3
      simp at h3
    unfold normalize_s3_arn_or_uri
    rw [ht, hdrop, htake, if_neg hne, if_neg (by simp [hnota]), if_pos hs3,
      if_neg hbne, if_neg (by omega)]
  · have htake : (bucket ++ '/' :: path).takeWhile (fun c => c ≠ '/') = bucket := by
      rw [takeWhile_append_all hall]
      simp [List.takeWhile_cons]
    unfold normalize_s3_arn_or_uri
    rw [ht, hdrop, htake, if_neg hne, if_neg (by simp [hnota]), if_pos hs3]
    by_cases hb : bucket = []
    · rw [if_pos hb]
      rfl
    · rw [if_neg hb, if_pos (by omega)]
      rfl

/-- C8 witness: the theorem applied to the spec's example shorthand, to a
canonical input, and to a 2-character bucket. -/
theorem c8_witness :
    normalize_s3_arn_or_uri (str "arn:aws:s3:::bucket-name")
      = .ok (str "arn:aws:s3:::bucket-name")
    ∧ normalize_s3_arn_or_uri (str "s3://" ++ (str "bucket-name" ++ '/' :: str "some/path"))
      = .ok (str "arn:aws:s3:::" ++ str "bucket-name")
    ∧ isValidationError
        (normalize_s3_arn_or_uri (str "s3://" ++ (str "ab" ++ '/' :: str "x"))) = true :=
  ⟨(c8_storage_reference_normalization (str "arn:aws:s3:::bucket-name") [] []).1
      (by decide) (by decide),
   (c8_storage_reference_normalization [] (str "bucket-name") (str "some/path")).2.1
      (by decide) (by decide) (by decide) (by decide),
   (c8_storage_reference_normalization [] (str "ab") (str "x")).2.2
      (by decide) (by decide) (by decide)⟩

/-! ## Lemmas about replaceAll (Python str.replace with empty replacement) -/

theorem replaceAllAux_no_occurrence {pat s : Str}
    (h : containsSub pat s = false) : ∀ fuel, replaceAllAux pat fuel s = s := by
  induction s with
  | nil => intro fuel; cases fuel <;> rfl
  | cons c rest ih =>
    simp only [containsSub, Bool.or_eq_false_iff] at h
    intro fuel
    cases fuel with
    | zero => rfl
    | succ f =>
      rw [replaceAllAux, if_neg (by simp [h.1]), ih h.2 f]

theorem replaceAllAux_succ (pat : Str) (fuel : Nat) (c : Char) (rest : Str) :
    replaceAllAux pat (fuel + 1) (c :: rest)
      = if startswith pat (c :: rest) then
          replaceAllAux pat fuel ((c :: rest).drop pat.length)
        else c :: replaceAllAux pat fuel rest := by
  rw [replaceAllAux]

/-- Stripping the shorthand marker: `(pat ++ t).replace(pat, "")` returns the
remainder `t` whenever `t` itself contains no further occurrence of `pat`. -/
theorem replaceAll_strip (c : Char) (ps t : Str)
    (h : containsSub (c :: ps) t = false) :
    replaceAll (c :: ps) ((c :: ps) ++ t) = t := by
  unfold replaceAll
  rw [if_neg (by simp)]
  rw [List.cons_append, List.length_cons, replaceAllAux_succ,
    if_pos (by rw [← List.cons_append]; exact startswith_append _ _)]
  have hdrop : (c :: (ps ++ t)).drop (c :: ps).length = t := by
    rw [List.length_cons, List.drop_succ_cons, List.drop_left]
  rw [hdrop, replaceAllAux_no_occurrence h]

theorem matchCanonicalRole_nil : matchCanonicalRole [] = none := rfl

/-- C2 counterexample: the claim says the shorthand `role/<name>` returns
`arn:aws:iam::<account>:role/<name>`.  The source strips the marker with
Python `str.replace`, which removes every occurrence of `"role/"`, so the
input `"role/role/A"` — shorthand for the role name `"role/A"` — yields
`arn:aws:iam::123456789012:role/A` instead of the claimed
`arn:aws:iam::123456789012:role/role/A` (one lookup is made either way). -/
theorem c2_counterexample :
    normalize_iam_role_arn env0 (str "role/role/A")
      = (.ok (str "arn:aws:iam::123456789012:role/A"), 1)
    ∧ (str "arn:aws:iam::123456789012:role/A" : Str)
        ≠ str "arn:aws:iam::123456789012:role/role/A" :=
  ⟨by decide, by decide⟩

/-- C2 amended: a canonical role reference is returned unchanged with no
identity lookup; shorthand inputs `role/<name>` and
`arn:aws:iam::role/<name>` trigger exactly one identity lookup and return
`arn:aws:iam::<account-id>:role/<name'>` where `<name'>` is `<name>` with
every occurrence of the respective shorthand marker removed — the canonical
form for `<name>` itself whenever `<name>` contains no further occurrence of
the marker; any other input is rejected as a format error with no lookup;
and a failure of the identity lookup propagates as the service (client)
failure itself, distinct from a format error, after that single lookup. -/
theorem c2_role_reference_normalization (env : Env) (s name acct code m : Str)
    (pr : Str × Str) (r : Option Str) :
    (trim s = s → matchCanonicalRole s = some pr →
        normalize_iam_role_arn env s = (.ok s, 0))
    ∧ (env.stsResponse = .ok (some acct) →
        containsSub (str "role/") name = false →
        trim (str "role/" ++ name) = str "role/" ++ name →
        normalize_iam_role_arn env (str "role/" ++ name)
          = (.ok (str "arn:aws:iam::" ++ acct ++ str ":role/" ++ name), 1))
    ∧ (env.stsResponse = .ok (some acct) →
        containsSub (str "arn:aws:iam::role/") name = false →
        trim (str "arn:aws:iam::role/" ++ name) = str "arn:aws:iam::role/" ++ name →
        normalize_iam_role_arn env (str "arn:aws:iam::role/" ++ name)
          = (.ok (str "arn:aws:iam::" ++ acct ++ str ":role/" ++ name), 1))
    ∧ (s ≠ [] → trim s = s → matchCanonicalRole s = none →
        startswith (str "arn:aws:iam::role/") s = false →
        startswith (str "role/") s = false →
        normalize_iam_role_arn env s
          = (.error (.valueError (str "Invalid IAM role ARN format")), 0))
    ∧ (env.stsResponse = .error (code, m, r) →
        trim (str "role/" ++ name) = str "role/" ++ name →
        normalize_iam_role_arn env (str "role/" ++ name)
          = (.error (.clientError code m r), 1)) := by
  have hvne : (str "role/" ++ name : Str) ≠ [] := by
    rw [show (str "role/" : Str) = 'r' :: str "ole/" from rfl, List.cons_append]
    exact List.cons_ne_nil _ _
  have hmc : matchCanonicalRole (str "role/" ++ name) = none := rfl
  have hnotlong :
      startswith (str "arn:aws:iam::role/") (str "role/" ++ name) = false := rfl
  have hsw : startswith (str "role/") (str "role/" ++ name) = true :=
    startswith_append _ _
  refine ⟨fun ht hm => ?_, fun hsts hnoc htr => ?_, fun hsts hnoc htr => ?_,
          fun hne ht hm hnl hns => ?_, fun hsts htr => ?_⟩
  · have hsne : s ≠ [] := by
      intro e
      rw [e, matchCanonicalRole_nil] at hm
      cases hm
    simp [normalize_iam_role_arn, hsne, ht, hm]
  · have hrep : replaceAll (str "role/") (str "role/" ++ name) = name :=
      replaceAll_strip 'r' (str "ole/") name hnoc
    simp [normalize_iam_role_arn, get_aws_account_id, hvne, htr, hmc, hnotlong,
      hsw, hsts, hrep]
  · have hvne2 : (str "arn:aws:iam::role/" ++ name : Str) ≠ [] := by
      rw [show (str "arn:aws:iam::role/" : Str) = 'a' :: str "rn:aws:iam::role/" from rfl,
        List.cons_append]
      exact List.cons_ne_nil _ _
    have hmc2 : matchCanonicalRole (str "arn:aws:iam::role/" ++ name) = none := rfl
    have hsw2 :
        startswith (str "arn:aws:iam::role/") (str "arn:aws:iam::role/" ++ name) = true :=
      startswith_append _ _
    have hrep2 :
        replaceAll (str "arn:aws:iam::role/") (str "arn:aws:iam::role/" ++ name) = name :=
      replaceAll_strip 'a' (str "rn:aws:iam::role/") name hnoc
    simp [normalize_iam_role_arn, get_aws_account_id, hvne2, htr, hmc2, hsw2,
      hsts, hrep2]
  · simp [normalize_iam_role_arn, hne, ht, hm, hnl, hns]
  · simp [normalize_iam_role_arn, get_aws_account_id, hvne, htr, hmc, hnotlong,
      hsw, hsts]

/-- C2 witness: the amended theorem applied at concrete inputs — a canonical
reference, the shorthand `role/MyRole` against a succeeding lookup, a
malformed reference, and a shorthand against a failing lookup. -/
theorem c2_witness :
    normalize_iam_role_arn env0 (str "arn:aws:iam::123456789012:role/MyRole")
      = (.ok (str "arn:aws:iam::123456789012:role/MyRole"), 0)
    ∧ normalize_iam_role_arn env0 (str "role/" ++ str "MyRole")
      = (.ok (str "arn:aws:iam::" ++ str "123456789012" ++ str ":role/" ++ str "MyRole"), 1)
    ∧ normalize_iam_role_arn env0 (str "not-a-role")
      = (.error (.valueError (str "Invalid IAM role ARN format")), 0)
    ∧ normalize_iam_role_arn ⟨.error (str "AccessDeniedException", str "denied", none)⟩
        (str "role/" ++ str "MyRole")
      = (.error (.clientError (str "AccessDeniedException") (str "denied") none), 1) :=
  ⟨(c2_role_reference_normalization env0 (str "arn:aws:iam::123456789012:role/MyRole")
      [] [] [] [] (str "123456789012", str "MyRole") none).1 (by decide) (by decide),
   (c2_role_reference_normalization env0 [] (str "MyRole") (str "123456789012")
      [] [] ([], []) none).2.1 (by decide) (by decide) (by decide),
   (c2_role_reference_normalization env0 (str "not-a-role") [] [] [] [] ([], []) none).2.2.2.1
      (by decide) (by decide) (by decide) (by decide) (by decide),
   (c2_role_reference_normalization ⟨.error (str "AccessDeniedException", str "denied", none)⟩
      [] (str "MyRole") [] (str "AccessDeniedException") (str "denied") ([], []) none).2.2.2.2
      rfl (by decide)⟩

/-! ## Lemmas about the shared ingestion-config construction (for C3) -/

theorem buildToolParsingConfig_error {ps pm pmod ppt : Str} {e : PyErr}
    (h : buildToolParsingConfig ps pm pmod ppt = .error e) :
    ∃ msg, e = .valueError msg := by
  unfold buildToolParsingConfig at h
  split at h
  · exact Except.noConfusion h
  · split at h
    · exact ⟨_, (Except.error.inj h).symm⟩
    · unfold mkParsingConfiguration at h
      split at h
      · simp only [Except.map] at h
        exact ⟨_, (Except.error.inj h).symm⟩
      · simp only [Except.map] at h
        exact Except.noConfusion h

theorem buildToolChunkingConfig_overlap_reject (cs : Str)
    (mt op ot bs bp : Int) (hcs : cs ≠ []) (hop : op > 100) :
    ∃ msg, buildToolChunkingConfig cs mt op ot bs bp = .error (.valueError msg) := by
  unfold buildToolChunkingConfig
  rw [if_neg hcs]
  cases hp : ChunkingStrategy.parse cs with
  | none => exact ⟨_, rfl⟩
  | some c =>
    have hio : intOpt op = some op := by
      unfold intOpt
      rw [if_pos (by omega)]
    simp only [mkChunkingConfiguration, hio]
    rw [if_pos (by omega)]
    simp only [Except.map]
    exact ⟨_, rfl⟩

theorem buildToolIngestionConfig_overlap_reject
    (ps pm pmod ppt cs : Str) (mt op ot bs bp : Int)
    (hcs : cs ≠ []) (hop : op > 100) :
    ∃ msg, buildToolIngestionConfig ps pm pmod ppt cs mt op ot bs bp
      = .error (.valueError msg) := by
  unfold buildToolIngestionConfig
  rw [if_neg (by simp [hcs])]
  cases hpc : buildToolParsingConfig ps pm pmod ppt with
  | error e =>
    obtain ⟨msg, rfl⟩ := buildToolParsingConfig_error hpc
    exact ⟨msg, rfl⟩
  | ok pc =>
    obtain ⟨msg, hc⟩ := buildToolChunkingConfig_overlap_reject cs mt op ot bs bp hcs hop
    rw [hc]
    exact ⟨msg, rfl⟩

theorem intOpt_nonpos {v : Int} (h : v ≤ 0) : intOpt v = intOpt 0 := by
  unfold intOpt
  rw [if_neg (by omega), if_neg (by omega)]

/-- C3 counterexample: the claim says any chunking overlap percentage outside
0–100 is rejected before any external call; but a negative overlap (here -5)
is converted to `None` by the tool's `value if value > 0 else None` guard,
so the call passes validation and performs the external creation call
instead of being rejected. -/
theorem c3_counterexample :
    isValidationError (create_knowledge_base env0
      { name := str "KB1", description := str "d",
        role_arn := str "arn:aws:iam::123456789012:role/MyRole",
        storage_type := str "S3", bucket_arn := str "arn:aws:s3:::my-bucket",
        chunking_strategy := str "FIXED_SIZE", chunking_max_tokens := 1000,
        chunking_overlap_percentage := -5 }).1 = false
    ∧ (create_knowledge_base env0
      { name := str "KB1", description := str "d",
        role_arn := str "arn:aws:iam::123456789012:role/MyRole",
        storage_type := str "S3", bucket_arn := str "arn:aws:s3:::my-bucket",
        chunking_strategy := str "FIXED_SIZE", chunking_max_tokens := 1000,
        chunking_overlap_percentage := -5 }).2 = 1 :=
  ⟨by decide, by decide⟩

/-- C3 amended: for create_knowledge_base and create_data_source calls that
select a chunking strategy, an overlap percentage greater than 100 is
rejected with a validation error before any external call; an overlap
percentage of 0 or below is not rejected but silently treated as absent —
the call behaves exactly as if the parameter had been omitted (its default
is 0). -/
theorem c3_overlap_validation (env : Env) (a : CreateKBArgs) (d : CreateDSArgs) :
    (a.chunking_strategy ≠ [] → a.chunking_overlap_percentage > 100 →
        rejectedNoCall (create_knowledge_base env a) = true)
    ∧ (d.chunking_strategy ≠ [] → d.chunking_overlap_percentage > 100 →
        rejectedNoCall (create_data_source d) = true)
    ∧ (a.chunking_overlap_percentage ≤ 0 →
        create_knowledge_base env a
          = create_knowledge_base env { a with chunking_overlap_percentage := 0 })
    ∧ (d.chunking_overlap_percentage ≤ 0 →
        create_data_source d
          = create_data_source { d with chunking_overlap_percentage := 0 }) := by
  refine ⟨fun hcs hop => ?_, fun hcs hop => ?_, fun hle => ?_, fun hle => ?_⟩
  · unfold create_knowledge_base
    cases hsp : StorageType.parse a.storage_type with
    | none => rfl
    | some st =>
      obtain ⟨msg, hb⟩ := buildToolIngestionConfig_overlap_reject
        a.parsing_strategy a.parsing_model_arn a.parsing_modality
        a.parsing_prompt_text a.chunking_strategy a.chunking_max_tokens
        a.chunking_overlap_percentage a.chunking_overlap_tokens
        a.chunking_buffer_size a.chunking_breakpoint_threshold hcs hop
      rw [hb]
      rfl
  · unfold create_data_source
    cases hsp : SourceType.parse d.source_type with
    | none => rfl
    | some st =>
      obtain ⟨msg, hb⟩ := buildToolIngestionConfig_overlap_reject
        d.parsing_strategy d.parsing_model_arn d.parsing_modality
        d.parsing_prompt_text d.chunking_strategy d.chunking_max_tokens
        d.chunking_overlap_percentage d.chunking_overlap_tokens
        d.chunking_buffer_size d.chunking_breakpoint_threshold hcs hop
      rw [hb]
      rfl
  · have key : buildToolChunkingConfig a.chunking_strategy a.chunking_max_tokens
        a.chunking_overlap_percentage a.chunking_overlap_tokens
        a.chunking_buffer_size a.chunking_breakpoint_threshold
        = buildToolChunkingConfig a.chunking_strategy a.chunking_max_tokens 0
        a.chunking_overlap_tokens a.chunking_buffer_size
        a.chunking_breakpoint_threshold := by
      unfold buildToolChunkingConfig
      rw [intOpt_nonpos hle]
    unfold create_knowledge_base buildToolIngestionConfig
    dsimp only
    rw [key]
  · have key : buildToolChunkingConfig d.chunking_strategy d.chunking_max_tokens
        d.chunking_overlap_percentage d.chunking_overlap_tokens
        d.chunking_buffer_size d.chunking_breakpoint_threshold
        = buildToolChunkingConfig d.chunking_strategy d.chunking_max_tokens 0
        d.chunking_overlap_tokens d.chunking_buffer_size
        d.chunking_breakpoint_threshold := by
      unfold buildToolChunkingConfig
      rw [intOpt_nonpos hle]
    unfold create_data_source buildToolIngestionConfig
    dsimp only
    rw [key]

/-- C3 witness: the amended theorem applied at concrete inputs — overlap 150
is rejected with no external call on both tools, and overlap -5 behaves as
the default 0 on both tools. -/
theorem c3_witness :
    rejectedNoCall (create_knowledge_base env0
      { name := str "KB1", description := str "d",
        role_arn := str "arn:aws:iam::123456789012:role/MyRole",
        storage_type := str "S3", bucket_arn := str "arn:aws:s3:::my-bucket",
        chunking_strategy := str "FIXED_SIZE", chunking_max_tokens := 1000,
        chunking_overlap_percentage := 150 }) = true
    ∧ rejectedNoCall (create_data_source
      { knowledge_base_id := str "KB123", name := str "DS1",
        bucket_arn := str "arn:aws:s3:::my-bucket",
        chunking_strategy := str "FIXED_SIZE", chunking_max_tokens := 1000,
        chunking_overlap_percentage := 150 }) = true
    ∧ create_knowledge_base env0
      { name := str "KB1", description := str "d",
        role_arn := str "arn:aws:iam::123456789012:role/MyRole",
        storage_type := str "S3", bucket_arn := str "arn:aws:s3:::my-bucket",
        chunking_strategy := str "FIXED_SIZE", chunking_max_tokens := 1000,
        chunking_overlap_percentage := -5 }
      = create_knowledge_base env0
      { name := str "KB1", description := str "d",
        role_arn := str "arn:aws:iam::123456789012:role/MyRole",
        storage_type := str "S3", bucket_arn := str "arn:aws:s3:::my-bucket",
        chunking_strategy := str "FIXED_SIZE", chunking_max_tokens := 1000,
        chunking_overlap_percentage := 0 }
    ∧ create_data_source
      { knowledge_base_id := str "KB123", name := str "DS1",
        bucket_arn := str "arn:aws:s3:::my-bucket",
        chunking_strategy := str "FIXED_SIZE", chunking_max_tokens := 1000,
        chunking_overlap_percentage := -5 }
      = create_data_source
      { knowledge_base_id := str "KB123", name := str "DS1",
        bucket_arn := str "arn:aws:s3:::my-bucket",
        chunking_strategy := str "FIXED_SIZE", chunking_max_tokens := 1000,
        chunking_overlap_percentage := 0 } :=
  ⟨(c3_overlap_validation env0
      { name := str "KB1", description := str "d",
        role_arn := str "arn:aws:iam::123456789012:role/MyRole",
        storage_type := str "S3", bucket_arn := str "arn:aws:s3:::my-bucket",
        chunking_strategy := str "FIXED_SIZE", chunking_max_tokens := 1000,
        chunking_overlap_percentage := 150 }
      { knowledge_base_id := str "KB123", name := str "DS1" }).1
      (by decide) (by decide),
   (c3_overlap_validation env0
      { name := str "KB1", description := str "d", role_arn := [] }
      { knowledge_base_id := str "KB123", name := str "DS1",
        bucket_arn := str "arn:aws:s3:::my-bucket",
        chunking_strategy := str "FIXED_SIZE", chunking_max_tokens := 1000,
        chunking_overlap_percentage := 150 }).2.1
      (by decide) (by decide),
   (c3_overlap_validation env0
      { name := str "KB1", description := str "d",
        role_arn := str "arn:aws:iam::123456789012:role/MyRole",
        storage_type := str "S3", bucket_arn := str "arn:aws:s3:::my-bucket",
        chunking_strategy := str "FIXED_SIZE", chunking_max_tokens := 1000,
        chunking_overlap_percentage := -5 }
      { knowledge_base_id := str "KB123", name := str "DS1" }).2.2.1
      (by decide),
   (c3_overlap_validation env0
      { name := str "KB1", description := str "d", role_arn := [] }
      { knowledge_base_id := str "KB123", name := str "DS1",
        bucket_arn := str "arn:aws:s3:::my-bucket",
        chunking_strategy := str "FIXED_SIZE", chunking_max_tokens := 1000,
        chunking_overlap_percentage := -5 }).2.2.2
      (by decide)⟩

/-! ## Lemmas about the knowledge-base request (for C10) -/

theorem mkCreateKBRequest_ok_fields {env : Env} {na d ra : Str}
    {st : StorageType} {ba : Str} {em : Option Str}
    {vic : Option VectorIngestionConfiguration}
    {req : CreateKnowledgeBaseRequest} {n : Nat}
    (h : mkCreateKnowledgeBaseRequest env na d ra st ba em vic = (.ok req, n)) :
    req.storage_type = st ∧ req.bucket_arn = ba := by
  unfold mkCreateKnowledgeBaseRequest at h
  rcases hn : normalize_iam_role_arn env ra with ⟨res, cnt⟩
  rw [hn] at h
  cases res with
  | error pe => cases pe <;> simp at h
  | ok nrole =>
    dsimp only at h
    cases hl : kbFieldErrors na d ba with
    | cons e' tl =>
      rw [hl] at h
      simp at h
    | nil =>
      rw [hl] at h
      split at h
      · simp at h
      · split at h
        · simp at h
        · simp only [Prod.mk.injEq, Except.ok.injEq] at h
          obtain ⟨h1, -⟩ := h
          subst h1
          exact ⟨rfl, rfl⟩

theorem buildStorageAndKBConfig_S3 {req : CreateKnowledgeBaseRequest} (mm : Str)
    (h : req.storage_type = .S3) :
    buildStorageAndKBConfig req mm
      = .ok ({ type := str "S3", s3Configuration := some ⟨req.bucket_arn⟩ }, none) := by
  unfold buildStorageAndKBConfig
  rw [h]

/-- C10: for every create_knowledge_base call with storage type "S3" that
passes validation, the request sent to the external service carries storage
configuration exactly `{"type": "S3", "s3Configuration": {"bucketArn": <the
validated bucket reference>}}` and no knowledgeBaseConfiguration; and the
values of embedding_model_arn and multimodal_storage_s3_uri have no effect
on the call at all (they are silently ignored, never rejected). -/
theorem c10_s3_storage_configuration (env : Env) (a : CreateKBArgs)
    (c : CreateKBCall) (n : Nat) (e m : Str) :
    (a.storage_type = str "S3" → create_knowledge_base env a = (.ok c, n) →
        c.storage_configuration
          = { type := str "S3", s3Configuration := some ⟨a.bucket_arn⟩ }
        ∧ c.knowledge_base_configuration = none)
    ∧ (a.storage_type = str "S3" →
        create_knowledge_base env
            { a with embedding_model_arn := e, multimodal_storage_s3_uri := m }
          = create_knowledge_base env a) := by
  constructor
  · intro hst h
    unfold create_knowledge_base at h
    rw [hst, show StorageType.parse (str "S3") = some .S3 from by decide] at h
    dsimp only at h
    cases hbt : buildToolIngestionConfig a.parsing_strategy a.parsing_model_arn
        a.parsing_modality a.parsing_prompt_text a.chunking_strategy
        a.chunking_max_tokens a.chunking_overlap_percentage a.chunking_overlap_tokens
        a.chunking_buffer_size a.chunking_breakpoint_threshold with
    | error er =>
      rw [hbt] at h
      simp at h
    | ok vic =>
      rw [hbt] at h
      dsimp only at h
      rcases hmk : mkCreateKnowledgeBaseRequest env a.name a.description a.role_arn
          StorageType.S3 a.bucket_arn (strOpt a.embedding_model_arn) vic with ⟨res, cnt⟩
      rw [hmk] at h
      cases res with
      | error er =>
        dsimp only at h
        simp at h
      | ok req =>
        obtain ⟨hst2, hba⟩ := mkCreateKBRequest_ok_fields hmk
        dsimp only at h
        rw [buildStorageAndKBConfig_S3 a.multimodal_storage_s3_uri hst2] at h
        dsimp only at h
        simp only [Prod.mk.injEq, Except.ok.injEq] at h
        obtain ⟨hc, -⟩ := h
        rw [← hc, hba]
        exact ⟨rfl, rfl⟩
  · intro hst
    unfold create_knowledge_base
    dsimp only
    rw [hst, show StorageType.parse (str "S3") = some .S3 from by decide]
    dsimp only
    cases hbt : buildToolIngestionConfig a.parsing_strategy a.parsing_model_arn
        a.parsing_modality a.parsing_prompt_text a.chunking_strategy
        a.chunking_max_tokens a.chunking_overlap_percentage a.chunking_overlap_tokens
        a.chunking_buffer_size a.chunking_breakpoint_threshold with
    | error er => rfl
    | ok vic =>
      unfold mkCreateKnowledgeBaseRequest buildStorageAndKBConfig
      dsimp only
      rcases hn : normalize_iam_role_arn env a.role_arn with ⟨res, cnt⟩
      cases res with
      | error pe => cases pe <;> rfl
      | ok nrole =>
        cases hl : kbFieldErrors a.name a.description a.bucket_arn with
        | cons e' tl => rfl
        | nil =>
          have hns : (StorageType.S3 = StorageType.S3_VECTORS) = False := by simp
          simp only [hns, false_and, if_false]

/-- C10 witness: applied at a concrete S3-storage call; the extra arguments
are silently ignored and the storage configuration is the plain S3 shape. -/
theorem c10_witness :
    ((create_knowledge_base env0
        { name := str "KB1", description := str "d",
          role_arn := str "arn:aws:iam::123456789012:role/MyRole",
          storage_type := str "S3",
          bucket_arn := str "arn:aws:s3:::my-bucket" }).1.isOk = true)
    ∧ create_knowledge_base env0
        { name := str "KB1", description := str "d",
          role_arn := str "arn:aws:iam::123456789012:role/MyRole",
          storage_type := str "S3", bucket_arn := str "arn:aws:s3:::my-bucket",
          embedding_model_arn := str "model-x",
          multimodal_storage_s3_uri := str "not-a-uri" }
      = create_knowledge_base env0
        { name := str "KB1", description := str "d",
          role_arn := str "arn:aws:iam::123456789012:role/MyRole",
          storage_type := str "S3", bucket_arn := str "arn:aws:s3:::my-bucket" } :=
  ⟨by decide,
   (c10_s3_storage_configuration env0
      { name := str "KB1", description := str "d",
        role_arn := str "arn:aws:iam::123456789012:role/MyRole",
        storage_type := str "S3", bucket_arn := str "arn:aws:s3:::my-bucket" }
      { name := [], description := [], role_arn := [],
        storage_configuration := { type := [] },
        knowledge_base_configuration := none,
        vector_ingestion_configuration := none, region := [] }
      0 (str "model-x") (str "not-a-uri")).2 (by decide)⟩

end BedrockKB
